import Mathlib

/-!
Shallow embedding of `src/bot.py` (pavanjvm/slack-rooms): the event-deduplication
and asynchronous response-delivery coordinator of the Slack bot.

Modelling conventions:
* Python strings are `String`; `time.time()` is a `Nat` number of seconds.
* The truncated MD5 hex digest `hashlib.md5(s.encode()).hexdigest()[:8]` is an
  explicit parameter `hash : String → String`; the only property of it the code
  relies on is that its output has length 8 (`Hash8`).
* `processed_events` is a Python `set`; we keep it as a duplicate-free `List`
  in insertion order, and model the unspecified iteration order taken by
  `list(processed_events)` as a parameter `enum` that may permute the set.
* Python dicts (`sent_responses`, `processing_tasks`) are association lists in
  insertion order; assignment updates in place or appends (`dictInsert`),
  `pop(k, None)` removes the entry (`dictPop`).
* The external world for one run of `process_mention_async` is an `Env` oracle:
  whether `chat_postMessage` for the acknowledgment succeeds (and the `ts` it
  returns), the upstream outcome of `session.post(MCP_URL, ...)`, whether
  `chat_update` succeeds, whether the `say` callback succeeds, the current
  time, and whether an unexpected internal fault fires (the outer `except`
  path); the fault point is modelled after the acknowledgment phase.
* Inbound `app_mention` events carry all four fields (`ts`, `channel`, `user`,
  `text`) as strings, as delivered by Slack.
* Outbound Slack traffic is recorded as a list of `OutMsg` values
  (`chat_postMessage`/`say` versus `chat_update`).
-/

namespace SlackBot

/-- One inbound Slack event, with the fields `bot.py` reads. -/
structure Event where
  ts : String
  channel : String
  user : String
  text : String
deriving DecidableEq, Repr

/-- `hash` stands for the truncated MD5 digest: its output always has 8 characters. -/
def Hash8 (hash : String → String) : Prop := ∀ s, (hash s).length = 8

/-- `MAX_CACHE_SIZE = 1000` (bot.py line 33). -/
def MAX_CACHE_SIZE : Nat := 1000

/-- `RESPONSE_CACHE_TTL = 600` (bot.py line 37). -/
def RESPONSE_CACHE_TTL : Nat := 600

/-- `create_response_key` (bot.py lines 62-69). -/
def create_response_key (hash : String → String) (e : Event) (response_text : String) : String :=
  e.ts ++ "_" ++ e.channel ++ "_" ++ e.user ++ "_" ++ hash response_text

/-- `create_event_key` (bot.py lines 278-287). -/
def create_event_key (hash : String → String) (e : Event) : String :=
  e.ts ++ "_" ++ e.channel ++ "_" ++
    hash (e.ts ++ "_" ++ e.channel ++ "_" ++ e.user ++ "_" ++ e.text)

/-- Python dict lookup on an association list: first entry whose key matches. -/
def dictGet {α : Type} (d : List (String × α)) (k : String) : Option α :=
  match d with
  | [] => none
  | p :: rest => if p.1 = k then some p.2 else dictGet rest k

/-- Python dict membership test (`k in d`). -/
def dictHas {α : Type} (d : List (String × α)) (k : String) : Bool :=
  match d with
  | [] => false
  | p :: rest => if p.1 = k then true else dictHas rest k

/-- Python dict assignment `d[k] = v`: update in place, else append. -/
def dictInsert {α : Type} (k : String) (v : α) (d : List (String × α)) :
    List (String × α) :=
  match d with
  | [] => [(k, v)]
  | p :: rest => if p.1 = k then (k, v) :: rest else p :: dictInsert k v rest

/-- Python `d.pop(k, None)`: remove the entry for `k` if present. -/
def dictPop {α : Type} (k : String) (d : List (String × α)) : List (String × α) :=
  match d with
  | [] => []
  | p :: rest => if p.1 = k then rest else p :: dictPop k rest

/-- Python `set.add`: no-op when present, else record (insertion order kept). -/
def setAdd {K : Type} [DecidableEq K] (k : K) (s : List K) : List K :=
  if k ∈ s then s else s ++ [k]

/-- The eviction pass of `handle_app_mention_events` (bot.py lines 314-318):
when the set has grown past `MAX_CACHE_SIZE`, the first `MAX_CACHE_SIZE // 2`
keys of the set's iteration order (`enum`) are discarded. -/
def evict_if_needed {K : Type} [DecidableEq K] (enum : List K → List K) (pe : List K) :
    List K :=
  if pe.length > MAX_CACHE_SIZE then
    pe.filter (fun k => k ∉ (enum pe).take (MAX_CACHE_SIZE / 2))
  else pe

/-- Recording one event key in `processed_events` (bot.py line 311) followed by
the eviction pass (lines 314-318). -/
def record_event {K : Type} [DecidableEq K] (enum : List K → List K) (k : K)
    (pe : List K) : List K :=
  evict_if_needed enum (setAdd k pe)

/-- The module-level mutable state of `bot.py`: `processed_events` (line 32),
`sent_responses` (line 36, key ↦ timestamp), `processing_tasks` (line 40,
event key ↦ request id). -/
structure BotState where
  processed_events : List String
  sent_responses : List (String × Nat)
  processing_tasks : List (String × String)
deriving DecidableEq, Repr

/-- One outbound Slack API message: a fresh post (`chat_postMessage`/`say`) or
an in-place edit (`chat_update`). -/
inductive OutMsg where
  | post (channel text : String)
  | update (channel ts text : String)
deriving DecidableEq, Repr

/-- The user-visible text of an outbound message. -/
def OutMsg.text : OutMsg → String
  | .post _ t => t
  | .update _ _ t => t

/-- Parsed JSON body of an upstream (MCP) HTTP 200 response:
`{"success": bool, "response"?: string, "error"?: string}`; a missing
`success` key reads as `false` via `mcp_response.get("success", False)`. -/
structure McpResponse where
  success : Bool
  response : Option String
  error : Option String
deriving DecidableEq, Repr

/-- Outcome of `session.post(MCP_URL, json=payload, timeout=30)`:
a response with some HTTP status and parsed body, an `asyncio.TimeoutError`,
or an `aiohttp.ClientError`. -/
inductive UpstreamOutcome where
  | responded (status : Nat) (body : McpResponse)
  | timeout
  | clientError
deriving DecidableEq, Repr

/-- External-world oracle for one run of `process_mention_async`. -/
structure Env where
  ackOk : Bool
  ackTs : String
  fault : Bool
  upstream : UpstreamOutcome
  updateOk : Bool
  sayOk : Bool
  now : Nat
deriving DecidableEq, Repr

/-- The acknowledgment text posted in STEP 1 (bot.py line 136). -/
def initial_message : String := "🤔 Processing your request... please hold on a moment."

/-- Default reply when the upstream success payload has no `response` field
(bot.py line 167). -/
def success_default : String := "✅ Request processed successfully"

/-- Generic apology used for upstream business errors (line 187) and for a
non-200 upstream status (line 202). -/
def generic_error_response : String := "Sorry, I couldn\x27t process the request at the moment."

/-- Timeout-specific apology (bot.py line 218). -/
def timeout_response : String := "Sorry, the request timed out. Please try again."

/-- Connectivity-specific apology for `aiohttp.ClientError` (bot.py line 234). -/
def connect_error_response : String := "Sorry, I couldn\x27t connect to the processing server."

/-- Apology delivered by the outer `except` handler (bot.py line 255). -/
def unexpected_error_response : String := "Sorry, an unexpected error occurred."

/-- `clean_old_responses` (bot.py lines 71-81): drop cache entries older than
`RESPONSE_CACHE_TTL`. -/
def clean_old_responses (now : Nat) (sr : List (String × Nat)) : List (String × Nat) :=
  sr.filter (fun p => ¬ (now - p.2 > RESPONSE_CACHE_TTL))

/-- `safe_say` (bot.py lines 83-112). Returns (sent?, new `sent_responses`,
outbound messages). A repeat of an identical response within 30 seconds is
blocked; a successful send is recorded at the current time, and when the cache
then holds more than 50 entries the TTL-based cleanup runs. A failing `say`
callback is caught and reported as `false` with no state change. -/
def safe_say (hash : String → String) (now : Nat) (message : String) (e : Event)
    (sayOk : Bool) (sr : List (String × Nat)) :
    Bool × List (String × Nat) × List OutMsg :=
  let response_key := create_response_key hash e message
  let blocked :=
    match dictGet sr response_key with
    | some t => decide (now - t < 30)
    | none => false
  if blocked then (false, sr, [])
  else if sayOk then
    let sr1 := dictInsert response_key now sr
    let sr2 := if sr1.length > 50 then clean_old_responses now sr1 else sr1
    (true, sr2, [OutMsg.post e.channel message])
  else (false, sr, [])

/-- The final-delivery pattern repeated at bot.py lines 169-183, 189-199,
204-214, 220-230, 236-246: if an acknowledgment timestamp exists, edit that
message in place (`chat_update`); if the edit fails, or there is no
acknowledgment handle, fall back to `safe_say`. -/
def deliver_final (hash : String → String) (env : Env) (text : String) (e : Event)
    (ackTs : Option String) (sr : List (String × Nat)) :
    List (String × Nat) × List OutMsg :=
  match ackTs with
  | some ts =>
    if env.updateOk then (sr, [OutMsg.update e.channel ts text])
    else
      let r := safe_say hash env.now text e env.sayOk sr
      (r.2.1, r.2.2)
  | none =>
    let r := safe_say hash env.now text e env.sayOk sr
    (r.2.1, r.2.2)

/-- The outer `except` delivery (bot.py lines 250-272): guarded by
`if initial_message_ts and channel:` (Python truthiness - the channel string
must be non-empty), update in place, falling back to `safe_say`, all failures
swallowed. -/
def deliver_fault (hash : String → String) (env : Env) (e : Event)
    (ackTs : Option String) (sr : List (String × Nat)) :
    List (String × Nat) × List OutMsg :=
  match ackTs with
  | some ts =>
    if e.channel = "" then
      let r := safe_say hash env.now unexpected_error_response e env.sayOk sr
      (r.2.1, r.2.2)
    else if env.updateOk then (sr, [OutMsg.update e.channel ts unexpected_error_response])
    else
      let r := safe_say hash env.now unexpected_error_response e env.sayOk sr
      (r.2.1, r.2.2)
  | none =>
    let r := safe_say hash env.now unexpected_error_response e env.sayOk sr
    (r.2.1, r.2.2)

/-- Result of one run of `process_mention_async`: the updated module state and
the outbound Slack messages issued during the run. -/
structure ProcResult where
  state : BotState
  outbox : List OutMsg
deriving DecidableEq, Repr

/-- STEP 1 of `process_mention_async` (bot.py lines 135-148): post the
acknowledgment via `chat_postMessage` and capture its `ts`; on failure fall
back to `safe_say` and leave the handle unset. Returns (handle, updated
`sent_responses`, outbound messages). -/
def ack_phase (hash : String → String) (env : Env) (e : Event)
    (sr : List (String × Nat)) : Option String × List (String × Nat) × List OutMsg :=
  if env.ackOk then (some env.ackTs, sr, [OutMsg.post e.channel initial_message])
  else
    let r := safe_say hash env.now initial_message e env.sayOk sr
    (none, r.2.1, r.2.2)

/-- STEP 3/4 of `process_mention_async` (bot.py lines 157-246) together with
the outer `except` (lines 250-272): classify the upstream outcome, map it to a
final text, and deliver it; an unexpected internal fault takes the outer
`except` path instead. -/
def resolve_and_deliver (hash : String → String) (env : Env) (e : Event)
    (ackTs : Option String) (sr : List (String × Nat)) :
    List (String × Nat) × List OutMsg :=
  if env.fault then deliver_fault hash env e ackTs sr
  else
    match env.upstream with
    | .responded status body =>
      if status = 200 then
        if body.success then
          let reply := body.response.getD success_default
          deliver_final hash env reply e ackTs sr
        else
          deliver_final hash env generic_error_response e ackTs sr
      else
        deliver_final hash env generic_error_response e ackTs sr
    | .timeout => deliver_final hash env timeout_response e ackTs sr
    | .clientError => deliver_final hash env connect_error_response e ackTs sr

/-- `process_mention_async` (bot.py lines 114-276): acknowledgment phase, then
upstream call and final delivery, then the `finally` block (lines 273-276),
which pops `f"{ts}_{channel}"` from `processing_tasks` - note this key is
built WITHOUT the content hash that `create_event_key` appends. -/
def process_mention_async (hash : String → String) (env : Env) (e : Event)
    (s : BotState) : ProcResult :=
  let a := ack_phase hash env e s.sent_responses
  let d := resolve_and_deliver hash env e a.1 a.2.1
  let event_key := e.ts ++ "_" ++ e.channel
  ⟨⟨s.processed_events, d.1, dictPop event_key s.processing_tasks⟩,
   a.2.2 ++ d.2⟩

/-- Result of the `app_mention` handler: the updated state and whether a
processing task was spawned. -/
structure HandlerResult where
  state : BotState
  started : Bool
deriving DecidableEq, Repr

/-- `handle_app_mention_events` (bot.py lines 290-329): drop the event if its
key is in `processed_events` or already in `processing_tasks`; otherwise mark
it processed (with the eviction pass), claim it in `processing_tasks`, and
spawn `process_mention_async`. -/
def handle_app_mention_events (hash : String → String)
    (enum : List String → List String) (request_id : String) (e : Event)
    (s : BotState) : HandlerResult :=
  let event_key := create_event_key hash e
  if event_key ∈ s.processed_events then ⟨s, false⟩
  else if dictHas s.processing_tasks event_key then ⟨s, false⟩
  else
    ⟨⟨record_event enum event_key s.processed_events,
      s.sent_responses,
      dictInsert event_key request_id s.processing_tasks⟩, true⟩

/-- `clear_cache` (bot.py lines 381-395): report the three entry counts, then
empty all three structures. -/
def clear_cache (s : BotState) : BotState × (Nat × Nat × Nat) :=
  (⟨[], [], []⟩,
   (s.processed_events.length, s.processing_tasks.length, s.sent_responses.length))

/-! ### Association-list (Python dict) lemmas -/

theorem dictGet_eq_none_iff {α : Type} (d : List (String × α)) (k : String) :
    dictGet d k = none ↔ ∀ p ∈ d, p.1 ≠ k := by
  induction d with
  | nil => simp [dictGet]
  | cons p rest ih =>
    by_cases h : p.1 = k <;> simp [dictGet, h, ih]

theorem dictInsert_of_fresh {α : Type} {d : List (String × α)} {k : String} (v : α)
    (h : dictGet d k = none) : dictInsert k v d = d ++ [(k, v)] := by
  induction d with
  | nil => simp [dictInsert]
  | cons p rest ih =>
    by_cases hp : p.1 = k
    · simp [dictGet, hp] at h
    · simp [dictGet, hp] at h
      simp [dictInsert, hp, ih h]

theorem dictGet_append_right {α : Type} (d : List (String × α)) (k : String) (v : α)
    (h : ∀ p ∈ d, p.1 ≠ k) : dictGet (d ++ [(k, v)]) k = some v := by
  induction d with
  | nil => simp [dictGet]
  | cons p rest ih =>
    have hp : p.1 ≠ k := h p (by simp)
    simp only [List.cons_append, dictGet, if_neg hp]
    exact ih fun q hq => h q (by simp [hq])

theorem dictHas_dictInsert_self {α : Type} (d : List (String × α)) (k : String) (v : α) :
    dictHas (dictInsert k v d) k = true := by
  induction d with
  | nil => simp [dictInsert, dictHas]
  | cons p rest ih =>
    by_cases hp : p.1 = k <;> simp [dictInsert, dictHas, hp, ih]

theorem dictHas_dictPop_of_ne {α : Type} (d : List (String × α)) {j k : String}
    (h : k ≠ j) : dictHas (dictPop j d) k = dictHas d k := by
  induction d with
  | nil => simp [dictPop]
  | cons p rest ih =>
    by_cases hp : p.1 = j
    · have hpk : p.1 ≠ k := by rw [hp]; intro hc; exact h hc.symm
      simp only [dictPop, if_pos hp, dictHas, if_neg hpk]
    · simp only [dictPop, if_neg hp]
      by_cases hpk : p.1 = k
      · simp only [dictHas, if_pos hpk]
      · simp only [dictHas, if_neg hpk, ih]

/-! ### `safe_say` behavior lemmas -/

theorem clean_keeps_now_entry (now : Nat) (d : List (String × Nat)) (k : String)
    (h : ∀ p ∈ d, p.1 ≠ k) :
    dictGet (clean_old_responses now (d ++ [(k, now)])) k = some now := by
  have hsplit : clean_old_responses now (d ++ [(k, now)]) =
      clean_old_responses now d ++ [(k, now)] := by
    unfold clean_old_responses
    rw [List.filter_append]
    congr 1
    simp
  rw [hsplit]
  refine dictGet_append_right _ k now fun p hp => h p ?_
  unfold clean_old_responses at hp
  exact List.mem_of_mem_filter hp

theorem safe_say_fresh_eval (hash : String → String) (now : Nat) (msg : String) (e : Event)
    (sr : List (String × Nat))
    (hfresh : dictGet sr (create_response_key hash e msg) = none) :
    safe_say hash now msg e true sr =
      (true,
       (if (dictInsert (create_response_key hash e msg) now sr).length > 50 then
          clean_old_responses now (dictInsert (create_response_key hash e msg) now sr)
        else dictInsert (create_response_key hash e msg) now sr),
       [OutMsg.post e.channel msg]) := by
  simp only [safe_say, hfresh]
  simp

theorem safe_say_records (hash : String → String) (now : Nat) (msg : String) (e : Event)
    (sr : List (String × Nat))
    (hfresh : dictGet sr (create_response_key hash e msg) = none) :
    (safe_say hash now msg e true sr).1 = true ∧
    (safe_say hash now msg e true sr).2.2 = [OutMsg.post e.channel msg] ∧
    dictGet (safe_say hash now msg e true sr).2.1 (create_response_key hash e msg) =
      some now := by
  have hins := dictInsert_of_fresh (d := sr) (k := create_response_key hash e msg) now hfresh
  have hkeys := (dictGet_eq_none_iff sr (create_response_key hash e msg)).mp hfresh
  rw [safe_say_fresh_eval hash now msg e sr hfresh]
  refine ⟨rfl, rfl, ?_⟩
  simp only [hins]
  split
  · exact clean_keeps_now_entry now sr _ hkeys
  · exact dictGet_append_right _ _ now hkeys

theorem safe_say_blocked (hash : String → String) (now : Nat) (msg : String) (e : Event)
    (ok : Bool) (sr : List (String × Nat)) (t : Nat)
    (hget : dictGet sr (create_response_key hash e msg) = some t) (hlt : now - t < 30) :
    safe_say hash now msg e ok sr = (false, sr, []) := by
  unfold safe_say
  simp [hget, hlt]

theorem safe_say_after_cooldown (hash : String → String) (now : Nat) (msg : String)
    (e : Event) (sr : List (String × Nat)) (t : Nat)
    (hget : dictGet sr (create_response_key hash e msg) = some t) (hge : 30 ≤ now - t) :
    (safe_say hash now msg e true sr).1 = true ∧
    (safe_say hash now msg e true sr).2.2 = [OutMsg.post e.channel msg] := by
  unfold safe_say
  have : ¬ (now - t < 30) := by omega
  simp [hget, this]

theorem safe_say_out_text (hash : String → String) (now : Nat) (msg : String) (e : Event)
    (ok : Bool) (sr : List (String × Nat)) :
    ∀ m ∈ (safe_say hash now msg e ok sr).2.2, OutMsg.text m = msg := by
  simp only [safe_say]
  split
  · simp
  · split
    · simp [OutMsg.text]
    · simp

/-! ### Outcome-to-text lemmas for `process_mention_async` -/

/-- The final text chosen for each upstream outcome (summary of the branch
structure at bot.py lines 162-246). -/
def upstream_text : UpstreamOutcome → String
  | .responded status body =>
    if status = 200 then
      if body.success then body.response.getD success_default
      else generic_error_response
    else generic_error_response
  | .timeout => timeout_response
  | .clientError => connect_error_response

theorem deliver_final_out_text (hash : String → String) (env : Env) (text : String)
    (e : Event) (ackTs : Option String) (sr : List (String × Nat)) :
    ∀ m ∈ (deliver_final hash env text e ackTs sr).2, OutMsg.text m = text := by
  cases ackTs with
  | some ts =>
    simp only [deliver_final]
    split
    · simp [OutMsg.text]
    · exact safe_say_out_text hash env.now text e env.sayOk sr
  | none =>
    exact safe_say_out_text hash env.now text e env.sayOk sr

theorem ack_out_text (hash : String → String) (env : Env) (e : Event)
    (sr : List (String × Nat)) :
    ∀ m ∈ (ack_phase hash env e sr).2.2, OutMsg.text m = initial_message := by
  simp only [ack_phase]
  split
  · simp [OutMsg.text]
  · exact safe_say_out_text hash env.now initial_message e env.sayOk sr

theorem resolve_nonfault_eq (hash : String → String) (env : Env) (e : Event)
    (ackTs : Option String) (sr : List (String × Nat)) (hf : env.fault = false) :
    resolve_and_deliver hash env e ackTs sr =
      deliver_final hash env (upstream_text env.upstream) e ackTs sr := by
  simp only [resolve_and_deliver, hf, Bool.false_eq_true, if_false]
  cases hup : env.upstream with
  | responded status body =>
    simp only [upstream_text]
    by_cases hst : status = 200
    · by_cases hsc : body.success <;> simp [hst, hsc]
    · simp [hst]
  | timeout => simp [upstream_text]
  | clientError => simp [upstream_text]

theorem process_out_text (hash : String → String) (env : Env) (e : Event) (s : BotState)
    (hf : env.fault = false) :
    ∀ m ∈ (process_mention_async hash env e s).outbox,
      OutMsg.text m = initial_message ∨ OutMsg.text m = upstream_text env.upstream := by
  intro m hm
  simp only [process_mention_async, List.mem_append] at hm
  rcases hm with hm | hm
  · exact Or.inl (ack_out_text hash env e s.sent_responses m hm)
  · rw [resolve_nonfault_eq hash env e _ _ hf] at hm
    exact Or.inr (deliver_final_out_text hash env _ e _ _ m hm)

theorem process_update_eval (hash : String → String) (env : Env) (e : Event)
    (s : BotState) (hf : env.fault = false) (ha : env.ackOk = true)
    (hu : env.updateOk = true) :
    process_mention_async hash env e s =
      ⟨⟨s.processed_events, s.sent_responses,
        dictPop (e.ts ++ "_" ++ e.channel) s.processing_tasks⟩,
       [OutMsg.post e.channel initial_message,
        OutMsg.update e.channel env.ackTs (upstream_text env.upstream)]⟩ := by
  have hack : ack_phase hash env e s.sent_responses =
      (some env.ackTs, s.sent_responses, [OutMsg.post e.channel initial_message]) := by
    simp [ack_phase, ha]
  have hres : resolve_and_deliver hash env e (some env.ackTs) s.sent_responses =
      (s.sent_responses,
       [OutMsg.update e.channel env.ackTs (upstream_text env.upstream)]) := by
    rw [resolve_nonfault_eq hash env e _ _ hf]
    simp [deliver_final, hu]
  simp only [process_mention_async, hack, hres]
  rfl

/-! ### Eviction lemmas for the `processed_events` cache -/

theorem record_event_no_evict {K : Type} [DecidableEq K] (enum : List K → List K)
    (k : K) (s : List K) (hk : k ∉ s) (hlen : s.length + 1 ≤ MAX_CACHE_SIZE) :
    record_event enum k s = s ++ [k] := by
  unfold record_event setAdd evict_if_needed
  rw [if_neg hk]
  have hc : ¬ ((s ++ [k]).length > MAX_CACHE_SIZE) := by
    simp only [List.length_append, List.length_singleton]
    omega
  rw [if_neg hc]

theorem record_event_fold_fresh {K : Type} [DecidableEq K] (enum : List K → List K) :
    ∀ (ks s : List K), (s ++ ks).Nodup → (s ++ ks).length ≤ MAX_CACHE_SIZE →
      ks.foldl (fun acc k => record_event enum k acc) s = s ++ ks := by
  intro ks
  induction ks with
  | nil => intro s _ _; simp
  | cons k rest ih =>
    intro s hnd hlen
    have hk : k ∉ s := by
      intro hmem
      exact (List.nodup_append.mp hnd).2.2 hmem (by simp)
    have hstep : record_event enum k s = s ++ [k] := by
      apply record_event_no_evict enum k s hk
      simp only [List.length_append, List.length_cons] at hlen
      omega
    rw [List.foldl_cons, hstep]
    have hnd2 : ((s ++ [k]) ++ rest).Nodup := by
      simpa [List.append_assoc] using hnd
    have hlen2 : ((s ++ [k]) ++ rest).length ≤ MAX_CACHE_SIZE := by
      simp only [List.length_append, List.length_singleton, List.length_cons,
        List.length_nil] at hlen ⊢
      omega
    rw [ih (s ++ [k]) hnd2 hlen2]
    simp

theorem filter_not_mem_length {K : Type} [DecidableEq K] (s t : List K)
    (hs : s.Nodup) (ht : t.Nodup) (hsub : ∀ x ∈ t, x ∈ s) :
    (s.filter (fun k => k ∉ t)).length = s.length - t.length := by
  have hperm : List.Perm (s.filter (fun k => k ∈ t)) t := by
    rw [List.perm_ext_iff_of_nodup (hs.filter _) ht]
    intro a
    simp only [List.mem_filter, decide_eq_true_eq]
    exact ⟨fun h => h.2, fun h => ⟨hsub a h, h⟩⟩
  have hlen1 : (s.filter (fun k => k ∈ t)).length = t.length := hperm.length_eq
  have hsplit := List.length_eq_length_filter_add (l := s) (fun k => decide (k ∈ t))
  have heq : s.filter (fun k => (! decide (k ∈ t))) = s.filter (fun k => k ∉ t) := by
    apply List.filter_congr
    intro x _
    simp [decide_not]
  rw [heq] at hsplit
  omega

theorem record_event_overflow {K : Type} [DecidableEq K] (enum : List K → List K)
    (henum : ∀ l, List.Perm (enum l) l) (pe : List K) (k : K)
    (hnd : pe.Nodup) (hk : k ∉ pe) (hlen : pe.length = MAX_CACHE_SIZE) :
    (record_event enum k pe).length = MAX_CACHE_SIZE / 2 + 1 ∧
    ∀ x ∈ record_event enum k pe, x ∈ pe ++ [k] := by
  have hset : setAdd k pe = pe ++ [k] := by unfold setAdd; rw [if_neg hk]
  have hqnd : (pe ++ [k]).Nodup := by
    rw [List.nodup_append]
    refine ⟨hnd, List.nodup_singleton k, ?_⟩
    intro x hx hxk
    rw [List.mem_singleton] at hxk
    exact hk (hxk ▸ hx)
  have hqlen : (pe ++ [k]).length = MAX_CACHE_SIZE + 1 := by
    simp [hlen]
  have hcond : (pe ++ [k]).length > MAX_CACHE_SIZE := by omega
  unfold record_event evict_if_needed
  rw [hset, if_pos hcond]
  have henq : List.Perm (enum (pe ++ [k])) (pe ++ [k]) := henum _
  have hennd : (enum (pe ++ [k])).Nodup := henq.nodup_iff.mpr hqnd
  have htnd : ((enum (pe ++ [k])).take (MAX_CACHE_SIZE / 2)).Nodup :=
    hennd.sublist (List.take_sublist _ _)
  have htsub : ∀ x ∈ (enum (pe ++ [k])).take (MAX_CACHE_SIZE / 2), x ∈ pe ++ [k] :=
    fun x hx => henq.mem_iff.mp (List.take_subset _ _ hx)
  have htlen : ((enum (pe ++ [k])).take (MAX_CACHE_SIZE / 2)).length =
      MAX_CACHE_SIZE / 2 := by
    rw [List.length_take, henq.length_eq, hqlen]
    have hN : MAX_CACHE_SIZE = 1000 := rfl
    rw [hN]
    omega
  constructor
  · rw [filter_not_mem_length _ _ hqnd htnd htsub, htlen, hqlen]
    have hN : MAX_CACHE_SIZE = 1000 := rfl
    rw [hN]
  · exact fun x hx => List.mem_of_mem_filter hx

theorem record_event_fold_length {K : Type} [DecidableEq K] (enum : List K → List K)
    (henum : ∀ l, List.Perm (enum l) l) (keys : List K)
    (hlen : keys.length = MAX_CACHE_SIZE + 1) (hnd : keys.Nodup) :
    (keys.foldl (fun acc k => record_event enum k acc) []).length =
      MAX_CACHE_SIZE / 2 + 1 ∧
    ∀ x ∈ keys.foldl (fun acc k => record_event enum k acc) [], x ∈ keys := by
  have hne : keys ≠ [] := by
    intro h
    rw [h] at hlen
    simp at hlen
  have hsplit := List.dropLast_append_getLast hne
  have hksnd : (keys.dropLast ++ [keys.getLast hne]).Nodup := by rw [hsplit]; exact hnd
  have hkslen : keys.dropLast.length = MAX_CACHE_SIZE := by
    have := List.length_dropLast keys
    rw [hlen] at this
    simpa using this
  have hknd : keys.dropLast.Nodup := (List.nodup_append.mp hksnd).1
  have hknotin : keys.getLast hne ∉ keys.dropLast := by
    intro hmem
    exact (List.nodup_append.mp hksnd).2.2 hmem (by simp)
  have hfold : keys.foldl (fun acc k => record_event enum k acc) [] =
      record_event enum (keys.getLast hne)
        (keys.dropLast.foldl (fun acc k => record_event enum k acc) []) := by
    conv_lhs => rw [← hsplit]
    rw [List.foldl_append]
    rfl
  have hfirst : keys.dropLast.foldl (fun acc k => record_event enum k acc) [] =
      keys.dropLast := by
    have := record_event_fold_fresh enum keys.dropLast []
    simp only [List.nil_append] at this
    exact this hknd (by omega)
  rw [hfold, hfirst]
  have hover := record_event_overflow enum henum keys.dropLast (keys.getLast hne)
    hknd hknotin hkslen
  refine ⟨hover.1, fun x hx => ?_⟩
  have := hover.2 x hx
  rw [hsplit] at this
  exact this

/-! ### Handler evaluation lemmas -/

theorem handle_noop_of_task (hash : String → String) (enum : List String → List String)
    (rid : String) (e : Event) (s : BotState)
    (h : dictHas s.processing_tasks (create_event_key hash e) = true) :
    handle_app_mention_events hash enum rid e s = ⟨s, false⟩ := by
  simp only [handle_app_mention_events]
  by_cases hmem : create_event_key hash e ∈ s.processed_events
  · rw [if_pos hmem]
  · rw [if_neg hmem, h]
    simp

theorem handle_fresh_eval (hash : String → String) (enum : List String → List String)
    (rid : String) (e : Event) (s : BotState)
    (h1 : create_event_key hash e ∉ s.processed_events)
    (h2 : dictHas s.processing_tasks (create_event_key hash e) = false) :
    handle_app_mention_events hash enum rid e s =
      ⟨⟨record_event enum (create_event_key hash e) s.processed_events,
        s.sent_responses,
        dictInsert (create_event_key hash e) rid s.processing_tasks⟩, true⟩ := by
  simp only [handle_app_mention_events]
  rw [if_neg h1, h2]
  simp

theorem event_key_ne_finally_key (hash : String → String) (e : Event) :
    create_event_key hash e ≠ e.ts ++ "_" ++ e.channel := by
  intro hq
  have hlen := congrArg String.length hq
  have hu : ("_" : String).length = 1 := rfl
  simp only [create_event_key, String.length_append, hu] at hlen
  omega

/-! ### Concrete inputs used by counterexamples and witnesses -/

/-- Stand-in for the truncated MD5 hex digest on concrete runs; the code
relies only on the digest being 8 characters long. -/
def hash0 : String → String := fun _ => "0a1b2c3d"

def e0 : Event := ⟨"1700000000.000100", "C123", "U777", "book a room"⟩

def emptyState : BotState := ⟨[], [], []⟩

/-- Successful run: acknowledgment posted, upstream 200/success with a
response text, `chat_update` succeeds. -/
def env0 : Env :=
  ⟨true, "1700000000.000200", false,
   .responded 200 ⟨true, some "Booked.", none⟩, true, true, 100⟩

/-- Upstream timeout run. -/
def envT : Env := ⟨true, "1700000000.000200", false, .timeout, true, true, 0⟩

/-- Upstream non-200 status run. -/
def env500 : Env :=
  ⟨true, "1700000000.000200", false, .responded 500 ⟨false, none, none⟩, true, true, 0⟩

/-- Upstream connection-failure run. -/
def envCE : Env := ⟨true, "1700000000.000200", false, .clientError, true, true, 0⟩

/-- Upstream business-error run (`{success: false, error: "room conflict"}`). -/
def envBiz : Env :=
  ⟨true, "1700000000.000200", false,
   .responded 200 ⟨false, none, some "room conflict"⟩, true, true, 0⟩

/-- Upstream success without a `response` field. -/
def envDef : Env :=
  ⟨true, "1700000000.000200", false,
   .responded 200 ⟨true, none, none⟩, true, true, 0⟩

/-! ### Claim theorems -/

/-- C1: the claim-release contract FAILS in the code. The handler records the
claim under `create_event_key` (`ts_channel_contenthash`), but the `finally`
block of `process_mention_async` pops `f"{ts}_{channel}"` - a different
string - so after processing completes `processing_tasks` still contains the
entry recorded by the handler. Concrete run: event with
ts="1700000000.000100", channel="C123", successful upstream reply. -/
theorem C1_claim_release_code_bug :
    (process_mention_async hash0 env0 e0
        (handle_app_mention_events hash0 id "req1" e0 emptyState).state).state.processing_tasks
      = [(create_event_key hash0 e0, "req1")] ∧
    create_event_key hash0 e0 = "1700000000.000100_C123_0a1b2c3d" := by
  decide

/-- C2 counterexample: inserting `MAX_CACHE_SIZE + 1` distinct keys (with the
set enumerated in insertion order, one possible iteration order of a Python
set) leaves `MAX_CACHE_SIZE / 2 + 1 = 501` keys, refuting the claimed
`MAX_CACHE_SIZE / 2 = 500`. -/
theorem C2_eviction_counterexample :
    ((List.range (MAX_CACHE_SIZE + 1)).foldl
        (fun acc k => record_event id k acc) []).length ≠ MAX_CACHE_SIZE / 2 := by
  have h := record_event_fold_length (K := Nat) id (fun l => List.Perm.refl l)
    (List.range (MAX_CACHE_SIZE + 1)) (by simp) (List.nodup_range _)
  rw [h.1]
  decide

/-- C2 amended: inserting `MAX_CACHE_SIZE + 1` distinct keys into the empty
cache leaves exactly `MAX_CACHE_SIZE / 2 + 1` keys - the eviction pass,
triggered only once the size strictly exceeds the bound, removes the first
`MAX_CACHE_SIZE / 2` keys of the set's iteration order (`enum`, an arbitrary
permutation - not necessarily the oldest by insertion); every retained key is
one of the inserted keys. -/
theorem C2_eviction_amended {K : Type} [DecidableEq K] (enum : List K → List K)
    (henum : ∀ l, List.Perm (enum l) l) (keys : List K)
    (hlen : keys.length = MAX_CACHE_SIZE + 1) (hnd : keys.Nodup) :
    (keys.foldl (fun acc k => record_event enum k acc) []).length =
      MAX_CACHE_SIZE / 2 + 1 ∧
    ∀ x ∈ keys.foldl (fun acc k => record_event enum k acc) [], x ∈ keys :=
  record_event_fold_length enum henum keys hlen hnd

theorem C2_eviction_amended_witness :
    ((List.range (MAX_CACHE_SIZE + 1)).foldl
        (fun acc k => record_event id k acc) []).length = MAX_CACHE_SIZE / 2 + 1 :=
  (C2_eviction_amended id (fun l => List.Perm.refl l) (List.range (MAX_CACHE_SIZE + 1))
    (by simp) (List.nodup_range _)).1

/-- C3 counterexample: with the acknowledgment posted and `chat_update`
succeeding, the final text "Booked." is delivered by editing the message in
place, yet `sent_responses` stays empty - no response-dedup entry is recorded
on the update path. -/
theorem C3_record_counterexample :
    (process_mention_async hash0 env0 e0 emptyState).state.sent_responses = [] ∧
    (process_mention_async hash0 env0 e0 emptyState).outbox =
      [OutMsg.post "C123" initial_message,
       OutMsg.update "C123" "1700000000.000200" "Booked."] := by
  decide

/-- C3 amended: a response-dedup entry `(recipient, event,
contentHash(finalText)) ↦ now` is recorded only when delivery goes through
`safe_say` (the new-message path): delivery via `chat_update` leaves
`sent_responses` unchanged, while a successful `safe_say` delivery (no
acknowledgment handle, fresh key) records the key with the current
timestamp. -/
theorem C3_record_amended (hash : String → String) (env : Env) (e : Event)
    (s : BotState) (text : String) (sr : List (String × Nat))
    (hf : env.fault = false) (ha : env.ackOk = true) (hu : env.updateOk = true)
    (hsay : env.sayOk = true)
    (hfresh : dictGet sr (create_response_key hash e text) = none) :
    (process_mention_async hash env e s).state.sent_responses = s.sent_responses ∧
    dictGet (deliver_final hash env text e none sr).1
      (create_response_key hash e text) = some env.now := by
  constructor
  · rw [process_update_eval hash env e s hf ha hu]
  · simp only [deliver_final]
    rw [hsay]
    exact (safe_say_records hash env.now text e sr hfresh).2.2

theorem C3_record_amended_witness :
    (process_mention_async hash0 env0 e0 emptyState).state.sent_responses =
      emptyState.sent_responses ∧
    dictGet (deliver_final hash0 env0 "Booked." e0 none []).1
      (create_response_key hash0 e0 "Booked.") = some env0.now :=
  C3_record_amended hash0 env0 e0 emptyState "Booked." [] rfl rfl rfl rfl rfl

/-- C4 counterexample: an identical response re-sent 60 seconds after the
first - well inside the 600-second `RESPONSE_CACHE_TTL` - is NOT suppressed:
two identical sends 60 seconds apart produce two outbound messages. -/
theorem C4_cooldown_counterexample :
    (60 : Nat) - 0 < RESPONSE_CACHE_TTL ∧
    ((safe_say hash0 0 "Booked." e0 true []).2.2 ++
      (safe_say hash0 60 "Booked." e0 true
        (safe_say hash0 0 "Booked." e0 true []).2.1).2.2).length = 2 := by
  decide

/-- C4 amended: the re-send suppression window in `safe_say` is 30 seconds,
not the 600-second `RESPONSE_CACHE_TTL` (which only governs cache-entry
cleanup): a fresh identical tuple sent at `now1` is delivered and recorded; a
repeat within 30 seconds of `now1` is suppressed with no outbound message and
no state change; a repeat at or after 30 seconds is sent again. -/
theorem C4_cooldown_amended (hash : String → String) (e : Event) (msg : String)
    (sr : List (String × Nat)) (now1 now2 : Nat)
    (hfresh : dictGet sr (create_response_key hash e msg) = none) :
    ((safe_say hash now1 msg e true sr).1 = true ∧
     (safe_say hash now1 msg e true sr).2.2 = [OutMsg.post e.channel msg]) ∧
    (now2 - now1 < 30 →
      safe_say hash now2 msg e true (safe_say hash now1 msg e true sr).2.1 =
        (false, (safe_say hash now1 msg e true sr).2.1, [])) ∧
    (30 ≤ now2 - now1 →
      (safe_say hash now2 msg e true (safe_say hash now1 msg e true sr).2.1).1 = true ∧
      (safe_say hash now2 msg e true (safe_say hash now1 msg e true sr).2.1).2.2 =
        [OutMsg.post e.channel msg]) := by
  have h1 := safe_say_records hash now1 msg e sr hfresh
  refine ⟨⟨h1.1, h1.2.1⟩, ?_, ?_⟩
  · intro hlt
    exact safe_say_blocked hash now2 msg e true _ now1 h1.2.2 hlt
  · intro hge
    exact safe_say_after_cooldown hash now2 msg e _ now1 h1.2.2 hge

theorem C4_cooldown_amended_witness :
    (safe_say hash0 10 "Booked." e0 true (safe_say hash0 0 "Booked." e0 true []).2.1 =
      (false, (safe_say hash0 0 "Booked." e0 true []).2.1, [])) ∧
    (safe_say hash0 45 "Booked." e0 true
      (safe_say hash0 0 "Booked." e0 true []).2.1).1 = true :=
  ⟨(C4_cooldown_amended hash0 e0 "Booked." [] 0 10 rfl).2.1 (by decide),
   ((C4_cooldown_amended hash0 e0 "Booked." [] 0 45 rfl).2.2 (by decide)).1⟩

/-- C5: an event presented to the handler twice triggers exactly one
processing run. The first presentation starts a task; a second presentation -
whether before the run completes (caught by `processed_events` or by
`processing_tasks`) or after a completed run of `process_mention_async`
(whose `finally` pops a differently-built key, so the registry entry
survives) - starts nothing and leaves the state unchanged. -/
theorem C5_dedup_single_run (hash : String → String)
    (enum : List String → List String) (rid rid2 : String) (e : Event) (s : BotState)
    (h1 : create_event_key hash e ∉ s.processed_events)
    (h2 : dictHas s.processing_tasks (create_event_key hash e) = false) :
    (handle_app_mention_events hash enum rid e s).started = true ∧
    (handle_app_mention_events hash enum rid2 e
        (handle_app_mention_events hash enum rid e s).state).started = false ∧
    (handle_app_mention_events hash enum rid2 e
        (handle_app_mention_events hash enum rid e s).state).state =
      (handle_app_mention_events hash enum rid e s).state ∧
    ∀ env : Env,
      (handle_app_mention_events hash enum rid2 e
          (process_mention_async hash env e
            (handle_app_mention_events hash enum rid e s).state).state).started = false ∧
      (handle_app_mention_events hash enum rid2 e
          (process_mention_async hash env e
            (handle_app_mention_events hash enum rid e s).state).state).state =
        (process_mention_async hash env e
          (handle_app_mention_events hash enum rid e s).state).state := by
  have hrun := handle_fresh_eval hash enum rid e s h1 h2
  have hstarted : (handle_app_mention_events hash enum rid e s).started = true := by
    rw [hrun]
  have htask1 : dictHas
      (handle_app_mention_events hash enum rid e s).state.processing_tasks
      (create_event_key hash e) = true := by
    rw [hrun]
    exact dictHas_dictInsert_self _ _ _
  have hsecond := handle_noop_of_task hash enum rid2 e
    (handle_app_mention_events hash enum rid e s).state htask1
  refine ⟨hstarted, by rw [hsecond], by rw [hsecond], ?_⟩
  intro env
  have htasks2 : (process_mention_async hash env e
      (handle_app_mention_events hash enum rid e s).state).state.processing_tasks =
      dictPop (e.ts ++ "_" ++ e.channel)
        (handle_app_mention_events hash enum rid e s).state.processing_tasks := rfl
  have htask3 : dictHas
      (process_mention_async hash env e
        (handle_app_mention_events hash enum rid e s).state).state.processing_tasks
      (create_event_key hash e) = true := by
    rw [htasks2, dictHas_dictPop_of_ne _ (event_key_ne_finally_key hash e)]
    exact htask1
  have hthird := handle_noop_of_task hash enum rid2 e
    (process_mention_async hash env e
      (handle_app_mention_events hash enum rid e s).state).state htask3
  exact ⟨by rw [hthird], by rw [hthird]⟩

theorem C5_dedup_single_run_witness :
    (handle_app_mention_events hash0 id "r1" e0 emptyState).started = true ∧
    (handle_app_mention_events hash0 id "r2" e0
        (handle_app_mention_events hash0 id "r1" e0 emptyState).state).started = false ∧
    (handle_app_mention_events hash0 id "r2" e0
        (process_mention_async hash0 env0 e0
          (handle_app_mention_events hash0 id "r1" e0 emptyState).state).state).started
      = false :=
  ⟨(C5_dedup_single_run hash0 id "r1" "r2" e0 emptyState
      (List.not_mem_nil _) rfl).1,
   (C5_dedup_single_run hash0 id "r1" "r2" e0 emptyState
      (List.not_mem_nil _) rfl).2.1,
   ((C5_dedup_single_run hash0 id "r1" "r2" e0 emptyState
      (List.not_mem_nil _) rfl).2.2.2 env0).1⟩

/-- C6: an upstream timeout is delivered as the timeout-specific apology:
every outbound message of such a run is either the acknowledgment or the
timeout text, and the generic apology is never sent. -/
theorem C6_timeout_text (hash : String → String) (env : Env) (e : Event) (s : BotState)
    (hup : env.upstream = .timeout) (hf : env.fault = false) :
    (∀ m ∈ (process_mention_async hash env e s).outbox,
        OutMsg.text m = initial_message ∨ OutMsg.text m = timeout_response) ∧
    (∀ m ∈ (process_mention_async hash env e s).outbox,
        OutMsg.text m ≠ generic_error_response) := by
  have h := process_out_text hash env e s hf
  rw [hup] at h
  have h2 : ∀ m ∈ (process_mention_async hash env e s).outbox,
      OutMsg.text m = initial_message ∨ OutMsg.text m = timeout_response := by
    simpa [upstream_text] using h
  refine ⟨h2, fun m hm hgen => ?_⟩
  rcases h2 m hm with h1 | h1 <;> rw [hgen] at h1
  · exact absurd h1 (by decide)
  · exact absurd h1 (by decide)

theorem C6_timeout_text_witness :
    (∀ m ∈ (process_mention_async hash0 envT e0 emptyState).outbox,
        OutMsg.text m = initial_message ∨ OutMsg.text m = timeout_response) ∧
    (∀ m ∈ (process_mention_async hash0 envT e0 emptyState).outbox,
        OutMsg.text m ≠ generic_error_response) :=
  C6_timeout_text hash0 envT e0 emptyState rfl rfl

/-- C7 counterexample: a non-200 upstream status (here 500) is delivered as
the generic apology, not the connectivity-specific one. -/
theorem C7_transport_counterexample :
    (process_mention_async hash0 env500 e0 emptyState).outbox =
      [OutMsg.post "C123" initial_message,
       OutMsg.update "C123" "1700000000.000200" generic_error_response] ∧
    generic_error_response ≠ connect_error_response := by
  decide

/-- C7 amended: connection failures (`aiohttp.ClientError`) yield the
connectivity-specific apology, but a non-200 HTTP status yields the generic
apology (the same text as business errors), not the connectivity one. -/
theorem C7_transport_amended (hash : String → String) (env : Env) (e : Event)
    (s : BotState) (hf : env.fault = false) :
    (env.upstream = .clientError →
      ∀ m ∈ (process_mention_async hash env e s).outbox,
        OutMsg.text m = initial_message ∨ OutMsg.text m = connect_error_response) ∧
    (∀ (status : Nat) (body : McpResponse),
      env.upstream = .responded status body → status ≠ 200 →
      ∀ m ∈ (process_mention_async hash env e s).outbox,
        OutMsg.text m = initial_message ∨ OutMsg.text m = generic_error_response) := by
  constructor
  · intro hup
    have h := process_out_text hash env e s hf
    rw [hup] at h
    simpa [upstream_text] using h
  · intro status body hup hst
    have h := process_out_text hash env e s hf
    rw [hup] at h
    simpa [upstream_text, hst] using h

theorem C7_transport_amended_witness :
    (∀ m ∈ (process_mention_async hash0 envCE e0 emptyState).outbox,
        OutMsg.text m = initial_message ∨ OutMsg.text m = connect_error_response) ∧
    (∀ m ∈ (process_mention_async hash0 env500 e0 emptyState).outbox,
        OutMsg.text m = initial_message ∨ OutMsg.text m = generic_error_response) :=
  ⟨(C7_transport_amended hash0 envCE e0 emptyState rfl).1 rfl,
   (C7_transport_amended hash0 env500 e0 emptyState rfl).2 500
     ⟨false, none, none⟩ rfl (by decide)⟩

/-- C8: HTTP 200 with success flag false delivers exactly the fixed generic
apology; the upstream error detail (the quantified `msg`, e.g. "room
conflict") never appears in any user-facing message - every outbound text is
one of the two fixed constants, independent of `msg`. -/
theorem C8_business_error_generic (hash : String → String) (env : Env) (e : Event)
    (s : BotState) (msg : String) (r : Option String)
    (hup : env.upstream = .responded 200 ⟨false, r, some msg⟩)
    (hf : env.fault = false) :
    (∀ m ∈ (process_mention_async hash env e s).outbox,
        OutMsg.text m = initial_message ∨ OutMsg.text m = generic_error_response) ∧
    (env.ackOk = true → env.updateOk = true →
      (process_mention_async hash env e s).outbox =
        [OutMsg.post e.channel initial_message,
         OutMsg.update e.channel env.ackTs generic_error_response]) := by
  constructor
  · have h := process_out_text hash env e s hf
    rw [hup] at h
    simpa [upstream_text] using h
  · intro ha hu
    rw [process_update_eval hash env e s hf ha hu, hup]
    simp [upstream_text]

theorem C8_business_error_generic_witness :
    (∀ m ∈ (process_mention_async hash0 envBiz e0 emptyState).outbox,
        OutMsg.text m = initial_message ∨ OutMsg.text m = generic_error_response) ∧
    (process_mention_async hash0 envBiz e0 emptyState).outbox =
      [OutMsg.post e0.channel initial_message,
       OutMsg.update e0.channel envBiz.ackTs generic_error_response] :=
  ⟨(C8_business_error_generic hash0 envBiz e0 emptyState "room conflict" none
      rfl rfl).1,
   (C8_business_error_generic hash0 envBiz e0 emptyState "room conflict" none
      rfl rfl).2 rfl rfl⟩

/-- C9: `POST /clear-cache` empties all three dedup structures in one call and
returns the entry counts each held beforehand; a redelivered event is
afterwards processed as new (the handler starts a task for any event on the
cleared state). -/
theorem C9_clear_cache_resets (s : BotState) :
    (clear_cache s).1 = ⟨[], [], []⟩ ∧
    (clear_cache s).2 =
      (s.processed_events.length, s.processing_tasks.length,
       s.sent_responses.length) ∧
    ∀ (hash : String → String) (enum : List String → List String)
      (rid : String) (e : Event),
      (handle_app_mention_events hash enum rid e (clear_cache s).1).started = true := by
  refine ⟨rfl, rfl, ?_⟩
  intro hash enum rid e
  simp [handle_app_mention_events, clear_cache, dictHas]

theorem C9_clear_cache_resets_witness :
    (clear_cache ⟨["k1"], [("rk", 5)], [("ek", "r0")]⟩).1 = ⟨[], [], []⟩ ∧
    (clear_cache ⟨["k1"], [("rk", 5)], [("ek", "r0")]⟩).2 = (1, 1, 1) ∧
    (handle_app_mention_events hash0 id "r9" e0
      (clear_cache ⟨["k1"], [("rk", 5)], [("ek", "r0")]⟩).1).started = true :=
  ⟨(C9_clear_cache_resets ⟨["k1"], [("rk", 5)], [("ek", "r0")]⟩).1,
   (C9_clear_cache_resets ⟨["k1"], [("rk", 5)], [("ek", "r0")]⟩).2.1,
   (C9_clear_cache_resets ⟨["k1"], [("rk", 5)], [("ek", "r0")]⟩).2.2 hash0 id "r9" e0⟩

/-- C10: HTTP 200 with success flag true but no `response` field delivers
exactly the fixed default text "✅ Request processed successfully". -/
theorem C10_default_success_text (hash : String → String) (env : Env) (e : Event)
    (s : BotState) (err : Option String)
    (hup : env.upstream = .responded 200 ⟨true, none, err⟩)
    (hf : env.fault = false) :
    (∀ m ∈ (process_mention_async hash env e s).outbox,
        OutMsg.text m = initial_message ∨ OutMsg.text m = success_default) ∧
    (env.ackOk = true → env.updateOk = true →
      (process_mention_async hash env e s).outbox =
        [OutMsg.post e.channel initial_message,
         OutMsg.update e.channel env.ackTs success_default]) := by
  constructor
  · have h := process_out_text hash env e s hf
    rw [hup] at h
    simpa [upstream_text] using h
  · intro ha hu
    rw [process_update_eval hash env e s hf ha hu, hup]
    simp [upstream_text]

theorem C10_default_success_text_witness :
    (∀ m ∈ (process_mention_async hash0 envDef e0 emptyState).outbox,
        OutMsg.text m = initial_message ∨ OutMsg.text m = success_default) ∧
    (process_mention_async hash0 envDef e0 emptyState).outbox =
      [OutMsg.post e0.channel initial_message,
       OutMsg.update e0.channel envDef.ackTs success_default] :=
  ⟨(C10_default_success_text hash0 envDef e0 emptyState none rfl rfl).1,
   (C10_default_success_text hash0 envDef e0 emptyState none rfl rfl).2 rfl rfl⟩

end SlackBot
